import Mathlib

/-!
Verification of the linear-algebra and lighting-math core of the
mdn-lighting-models lessons (gregtatum/mdn-lighting-models).

The lesson scripts under lessons/ call a small shared matrix library through
the MDN namespace (shared/matrices.js).  That shared file is not part of the
staged sources, so the MDN functions are modelled from the specification's
contracts (spec sections 4.1 and 4.2) and from the comments the lesson code
itself carries about them; every per-lesson function (computeViewMatrix,
computeNormalMatrix, createLights, updateLightBuffers, syncWithUniforms,
the quoted shader bodies) is translated directly from the lesson scripts.

Numbers are embedded exactly: JavaScript floats become rationals in the
matrix/buffer layer (where the code only adds, multiplies and divides) and
reals in the vector/shading layer (where normalize takes a square root).
Matrices are flat column-major arrays, as in the source: entry (row r,
column c) of a 4x4 matrix lives at index c*4+r, of a 3x3 at c*3+r.
-/

set_option maxHeartbeats 2000000

namespace MDN

/-- A 4x4 matrix as the source stores it: a flat array of 16 numbers in
column-major order, entry (row r, column c) at field index c*4+r. -/
structure Matrix4 where
  m0 : ℚ
  m1 : ℚ
  m2 : ℚ
  m3 : ℚ
  m4 : ℚ
  m5 : ℚ
  m6 : ℚ
  m7 : ℚ
  m8 : ℚ
  m9 : ℚ
  m10 : ℚ
  m11 : ℚ
  m12 : ℚ
  m13 : ℚ
  m14 : ℚ
  m15 : ℚ
deriving DecidableEq, Repr

attribute [ext] Matrix4

/-- A 3x3 matrix, flat column-major: entry (row r, column c) at index c*3+r.
Used exclusively for the normal matrix. -/
structure Matrix3 where
  n0 : ℚ
  n1 : ℚ
  n2 : ℚ
  n3 : ℚ
  n4 : ℚ
  n5 : ℚ
  n6 : ℚ
  n7 : ℚ
  n8 : ℚ
deriving DecidableEq, Repr

attribute [ext] Matrix3

/-- Modelled from the spec: the identity transform (translationMatrix with
zero offsets; reference point for the inversion laws). -/
def identityMatrix : Matrix4 where
  m0 := 1
  m1 := 0
  m2 := 0
  m3 := 0
  m4 := 0
  m5 := 1
  m6 := 0
  m7 := 0
  m8 := 0
  m9 := 0
  m10 := 1
  m11 := 0
  m12 := 0
  m13 := 0
  m14 := 0
  m15 := 1

/-- Modelled from the spec: MDN.translateMatrix(x, y, z) from the missing
shared/matrices.js — a pure translation, identity elsewhere, with the
offsets in the fourth column of the column-major array. -/
def translateMatrix (x y z : ℚ) : Matrix4 where
  m0 := 1
  m1 := 0
  m2 := 0
  m3 := 0
  m4 := 0
  m5 := 1
  m6 := 0
  m7 := 0
  m8 := 0
  m9 := 0
  m10 := 1
  m11 := 0
  m12 := x
  m13 := y
  m14 := z
  m15 := 1

/-- Modelled from the spec: MDN.multiplyMatrices(a, b) from the missing
shared/matrices.js — the standard (non-commutative) 4x4 product a * b,
"apply b, then a". -/
def multiplyMatrices (a b : Matrix4) : Matrix4 where
  m0 := a.m0 * b.m0 + a.m4 * b.m1 + a.m8 * b.m2 + a.m12 * b.m3
  m1 := a.m1 * b.m0 + a.m5 * b.m1 + a.m9 * b.m2 + a.m13 * b.m3
  m2 := a.m2 * b.m0 + a.m6 * b.m1 + a.m10 * b.m2 + a.m14 * b.m3
  m3 := a.m3 * b.m0 + a.m7 * b.m1 + a.m11 * b.m2 + a.m15 * b.m3
  m4 := a.m0 * b.m4 + a.m4 * b.m5 + a.m8 * b.m6 + a.m12 * b.m7
  m5 := a.m1 * b.m4 + a.m5 * b.m5 + a.m9 * b.m6 + a.m13 * b.m7
  m6 := a.m2 * b.m4 + a.m6 * b.m5 + a.m10 * b.m6 + a.m14 * b.m7
  m7 := a.m3 * b.m4 + a.m7 * b.m5 + a.m11 * b.m6 + a.m15 * b.m7
  m8 := a.m0 * b.m8 + a.m4 * b.m9 + a.m8 * b.m10 + a.m12 * b.m11
  m9 := a.m1 * b.m8 + a.m5 * b.m9 + a.m9 * b.m10 + a.m13 * b.m11
  m10 := a.m2 * b.m8 + a.m6 * b.m9 + a.m10 * b.m10 + a.m14 * b.m11
  m11 := a.m3 * b.m8 + a.m7 * b.m9 + a.m11 * b.m10 + a.m15 * b.m11
  m12 := a.m0 * b.m12 + a.m4 * b.m13 + a.m8 * b.m14 + a.m12 * b.m15
  m13 := a.m1 * b.m12 + a.m5 * b.m13 + a.m9 * b.m14 + a.m13 * b.m15
  m14 := a.m2 * b.m12 + a.m6 * b.m13 + a.m10 * b.m14 + a.m14 * b.m15
  m15 := a.m3 * b.m12 + a.m7 * b.m13 + a.m11 * b.m14 + a.m15 * b.m15

/-- Determinant of a column-major 4x4 matrix (the singularity test of the
spec's invertMatrix contract). -/
def det4 (m : Matrix4) : ℚ :=
  m.m0 * m.m5 * m.m10 * m.m15 - m.m0 * m.m5 * m.m14 * m.m11 - m.m0 * m.m9 * m.m6 * m.m15 + m.m0 * m.m9 * m.m14 * m.m7 + m.m0 * m.m13 * m.m6 * m.m11 - m.m0 * m.m13 * m.m10 * m.m7 - m.m4 * m.m1 * m.m10 * m.m15 + m.m4 * m.m1 * m.m14 * m.m11 + m.m4 * m.m9 * m.m2 * m.m15 - m.m4 * m.m9 * m.m14 * m.m3 - m.m4 * m.m13 * m.m2 * m.m11 + m.m4 * m.m13 * m.m10 * m.m3 + m.m8 * m.m1 * m.m6 * m.m15 - m.m8 * m.m1 * m.m14 * m.m7 - m.m8 * m.m5 * m.m2 * m.m15 + m.m8 * m.m5 * m.m14 * m.m3 + m.m8 * m.m13 * m.m2 * m.m7 - m.m8 * m.m13 * m.m6 * m.m3 - m.m12 * m.m1 * m.m6 * m.m11 + m.m12 * m.m1 * m.m10 * m.m7 + m.m12 * m.m5 * m.m2 * m.m11 - m.m12 * m.m5 * m.m10 * m.m3 - m.m12 * m.m9 * m.m2 * m.m7 + m.m12 * m.m9 * m.m6 * m.m3

/-- The cofactor/adjugate inverse of a nonsingular column-major 4x4 matrix:
entry (r, c) of the result is the (c, r) cofactor of m divided by det4 m. -/
def invertAux (m : Matrix4) : Matrix4 where
  m0 := (m.m5 * m.m10 * m.m15 - m.m5 * m.m14 * m.m11 - m.m9 * m.m6 * m.m15 + m.m9 * m.m14 * m.m7 + m.m13 * m.m6 * m.m11 - m.m13 * m.m10 * m.m7) / det4 m
  m1 := (-(m.m1 * m.m10 * m.m15 - m.m1 * m.m14 * m.m11 - m.m9 * m.m2 * m.m15 + m.m9 * m.m14 * m.m3 + m.m13 * m.m2 * m.m11 - m.m13 * m.m10 * m.m3)) / det4 m
  m2 := (m.m1 * m.m6 * m.m15 - m.m1 * m.m14 * m.m7 - m.m5 * m.m2 * m.m15 + m.m5 * m.m14 * m.m3 + m.m13 * m.m2 * m.m7 - m.m13 * m.m6 * m.m3) / det4 m
  m3 := (-(m.m1 * m.m6 * m.m11 - m.m1 * m.m10 * m.m7 - m.m5 * m.m2 * m.m11 + m.m5 * m.m10 * m.m3 + m.m9 * m.m2 * m.m7 - m.m9 * m.m6 * m.m3)) / det4 m
  m4 := (-(m.m4 * m.m10 * m.m15 - m.m4 * m.m14 * m.m11 - m.m8 * m.m6 * m.m15 + m.m8 * m.m14 * m.m7 + m.m12 * m.m6 * m.m11 - m.m12 * m.m10 * m.m7)) / det4 m
  m5 := (m.m0 * m.m10 * m.m15 - m.m0 * m.m14 * m.m11 - m.m8 * m.m2 * m.m15 + m.m8 * m.m14 * m.m3 + m.m12 * m.m2 * m.m11 - m.m12 * m.m10 * m.m3) / det4 m
  m6 := (-(m.m0 * m.m6 * m.m15 - m.m0 * m.m14 * m.m7 - m.m4 * m.m2 * m.m15 + m.m4 * m.m14 * m.m3 + m.m12 * m.m2 * m.m7 - m.m12 * m.m6 * m.m3)) / det4 m
  m7 := (m.m0 * m.m6 * m.m11 - m.m0 * m.m10 * m.m7 - m.m4 * m.m2 * m.m11 + m.m4 * m.m10 * m.m3 + m.m8 * m.m2 * m.m7 - m.m8 * m.m6 * m.m3) / det4 m
  m8 := (m.m4 * m.m9 * m.m15 - m.m4 * m.m13 * m.m11 - m.m8 * m.m5 * m.m15 + m.m8 * m.m13 * m.m7 + m.m12 * m.m5 * m.m11 - m.m12 * m.m9 * m.m7) / det4 m
  m9 := (-(m.m0 * m.m9 * m.m15 - m.m0 * m.m13 * m.m11 - m.m8 * m.m1 * m.m15 + m.m8 * m.m13 * m.m3 + m.m12 * m.m1 * m.m11 - m.m12 * m.m9 * m.m3)) / det4 m
  m10 := (m.m0 * m.m5 * m.m15 - m.m0 * m.m13 * m.m7 - m.m4 * m.m1 * m.m15 + m.m4 * m.m13 * m.m3 + m.m12 * m.m1 * m.m7 - m.m12 * m.m5 * m.m3) / det4 m
  m11 := (-(m.m0 * m.m5 * m.m11 - m.m0 * m.m9 * m.m7 - m.m4 * m.m1 * m.m11 + m.m4 * m.m9 * m.m3 + m.m8 * m.m1 * m.m7 - m.m8 * m.m5 * m.m3)) / det4 m
  m12 := (-(m.m4 * m.m9 * m.m14 - m.m4 * m.m13 * m.m10 - m.m8 * m.m5 * m.m14 + m.m8 * m.m13 * m.m6 + m.m12 * m.m5 * m.m10 - m.m12 * m.m9 * m.m6)) / det4 m
  m13 := (m.m0 * m.m9 * m.m14 - m.m0 * m.m13 * m.m10 - m.m8 * m.m1 * m.m14 + m.m8 * m.m13 * m.m2 + m.m12 * m.m1 * m.m10 - m.m12 * m.m9 * m.m2) / det4 m
  m14 := (-(m.m0 * m.m5 * m.m14 - m.m0 * m.m13 * m.m6 - m.m4 * m.m1 * m.m14 + m.m4 * m.m13 * m.m2 + m.m12 * m.m1 * m.m6 - m.m12 * m.m5 * m.m2)) / det4 m
  m15 := (m.m0 * m.m5 * m.m10 - m.m0 * m.m9 * m.m6 - m.m4 * m.m1 * m.m10 + m.m4 * m.m9 * m.m2 + m.m8 * m.m1 * m.m6 - m.m8 * m.m5 * m.m2) / det4 m

/-- Modelled from the spec: MDN.invertMatrix(m) from the missing
shared/matrices.js — the general 4x4 inverse, failing fast (none) on a
singular input, per the spec's DegenerateInput policy. -/
def invertMatrix (m : Matrix4) : Option Matrix4 :=
  if det4 m = 0 then none else some (invertAux m)

/-- Determinant of a column-major 3x3 matrix. -/
def det3 (m : Matrix3) : ℚ :=
  m.n0 * m.n4 * m.n8 - m.n0 * m.n7 * m.n5 - m.n3 * m.n1 * m.n8 + m.n3 * m.n7 * m.n2 + m.n6 * m.n1 * m.n5 - m.n6 * m.n4 * m.n2

/-- Cofactor/adjugate inverse of a nonsingular column-major 3x3 matrix. -/
def invert3 (m : Matrix3) : Matrix3 where
  n0 := (m.n4 * m.n8 - m.n7 * m.n5) / det3 m
  n1 := (-(m.n1 * m.n8 - m.n7 * m.n2)) / det3 m
  n2 := (m.n1 * m.n5 - m.n4 * m.n2) / det3 m
  n3 := (-(m.n3 * m.n8 - m.n6 * m.n5)) / det3 m
  n4 := (m.n0 * m.n8 - m.n6 * m.n2) / det3 m
  n5 := (-(m.n0 * m.n5 - m.n3 * m.n2)) / det3 m
  n6 := (m.n3 * m.n7 - m.n6 * m.n4) / det3 m
  n7 := (-(m.n0 * m.n7 - m.n6 * m.n1)) / det3 m
  n8 := (m.n0 * m.n4 - m.n3 * m.n1) / det3 m

/-- The top-left 3x3 block of a column-major 4x4 matrix. -/
def topLeft3x3 (m : Matrix4) : Matrix3 where
  n0 := m.m0
  n1 := m.m1
  n2 := m.m2
  n3 := m.m4
  n4 := m.m5
  n5 := m.m6
  n6 := m.m8
  n7 := m.m9
  n8 := m.m10

/-- Transpose of a column-major 3x3 matrix. -/
def transpose3 (m : Matrix3) : Matrix3 where
  n0 := m.n0
  n1 := m.n3
  n2 := m.n6
  n3 := m.n1
  n4 := m.n4
  n5 := m.n7
  n6 := m.n2
  n7 := m.n5
  n8 := m.n8

/-- Modelled from the spec: MDN.normalMatrix(m) from the missing
shared/matrices.js — per spec section 4.2 and the lesson code's own comment
("takes the inverse and then transpose of the provided matrix and returns a
3x3 matrix"): top-left 3x3, inverted, transposed. -/
def normalMatrix (m : Matrix4) : Matrix3 :=
  transpose3 (invert3 (topLeft3x3 m))

end MDN

/-- The per-lesson bag of matrix transforms (this.transforms in every
lesson script): model, view, projection, and the derived normal matrix. -/
structure Transforms where
  model : MDN.Matrix4
  view : MDN.Matrix4
  projection : MDN.Matrix4
  normalMatrix : MDN.Matrix3
deriving DecidableEq, Repr

namespace Lesson01

/-- 01-no-lighting computeViewMatrix: invert the camera's translation
(0, 5, 10).  The inversion can fail in the model, so the stored view is an
optional matrix. -/
def computeViewMatrix : Option MDN.Matrix4 :=
  MDN.invertMatrix (MDN.translateMatrix 0 5 10)

end Lesson01

namespace Lesson03

/-- 03-transform-normals computeViewMatrix: the negated camera translation
written directly, translateMatrix(0, -5, -10). -/
def computeViewMatrix : MDN.Matrix4 :=
  MDN.translateMatrix 0 (-5) (-10)

/-- 03-transform-normals computeNormalMatrix: combine view and model, then
derive the normal matrix from the product. -/
def computeNormalMatrix (t : Transforms) : Transforms :=
  let modelView := MDN.multiplyMatrices t.view t.model
  { t with normalMatrix := MDN.normalMatrix modelView }

end Lesson03

namespace Lesson04

/-- 04-lambert-lighting computeViewMatrix: invertMatrix(translateMatrix(0, 5, 10)). -/
def computeViewMatrix : Option MDN.Matrix4 :=
  MDN.invertMatrix (MDN.translateMatrix 0 5 10)

/-- 04-lambert-lighting computeNormalMatrix: the normal matrix is derived
from the product multiplyMatrices(view, model). -/
def computeNormalMatrix (t : Transforms) : Transforms :=
  let modelView := MDN.multiplyMatrices t.view t.model
  { t with normalMatrix := MDN.normalMatrix modelView }

end Lesson04

namespace Lesson05Multi

/-- 05-multiple-lights computeViewMatrix: invertMatrix(translateMatrix(0, 5, 10)). -/
def computeViewMatrix : Option MDN.Matrix4 :=
  MDN.invertMatrix (MDN.translateMatrix 0 5 10)

/-- 05-multiple-lights computeNormalMatrix: derived from
multiplyMatrices(view, model). -/
def computeNormalMatrix (t : Transforms) : Transforms :=
  let modelView := MDN.multiplyMatrices t.view t.model
  { t with normalMatrix := MDN.normalMatrix modelView }

end Lesson05Multi

namespace Lesson05BlinnPhong

/-- 05-blinn-phong-lighting-model cameraPosition = [0, 5, 10]. -/
def cameraPosition : ℚ × ℚ × ℚ := (0, 5, 10)

/-- 05-blinn-phong-lighting-model computeViewMatrix: build the camera's
translation from cameraPosition and invert it. -/
def computeViewMatrix : Option MDN.Matrix4 :=
  MDN.invertMatrix
    (MDN.translateMatrix cameraPosition.1 cameraPosition.2.1 cameraPosition.2.2)

/-- 05-blinn-phong-lighting-model computeNormalMatrix: the modelView product
is computed, but only transforms.model is passed to MDN.normalMatrix. -/
def computeNormalMatrix (t : Transforms) : Transforms :=
  let modelView := MDN.multiplyMatrices t.view t.model
  { t with normalMatrix := MDN.normalMatrix t.model }

end Lesson05BlinnPhong

namespace LessonHalfway

/-- The unnamed halfway-vector Blinn-Phong lesson (src/unnamed/part_000)
computeNormalMatrix: the modelView product is computed, but only
transforms.model is passed to MDN.normalMatrix. -/
def computeNormalMatrix (t : Transforms) : Transforms :=
  let modelView := MDN.multiplyMatrices t.view t.model
  { t with normalMatrix := MDN.normalMatrix t.model }

end LessonHalfway

namespace MDN

/-- Adjugate identity for the cofactor inverse: a matrix with nonzero
determinant times its cofactor inverse is the identity. -/
theorem mul_invertAux (A : Matrix4) (h : det4 A ≠ 0) :
    multiplyMatrices A (invertAux A) = identityMatrix := by
  ext <;> simp only [multiplyMatrices, invertAux, identityMatrix] <;>
    field_simp <;> ring_nf <;> simp [det4] <;> ring

end MDN

/-- C1: the normal matrix is the inverse-transpose of the top-left 3x3 of
its input; the transform-normals, Lambert and multiple-lights lessons feed
it multiplyMatrices(view, model), while both Blinn-Phong lessons compute
that same product but pass only transforms.model — and the two derivations
genuinely differ on some transforms. -/
theorem C1_normal_matrix_derivation :
    (∀ m, MDN.normalMatrix m = MDN.transpose3 (MDN.invert3 (MDN.topLeft3x3 m))) ∧
    (∀ t, Lesson03.computeNormalMatrix t =
      { t with normalMatrix := MDN.normalMatrix (MDN.multiplyMatrices t.view t.model) }) ∧
    (∀ t, Lesson04.computeNormalMatrix t =
      { t with normalMatrix := MDN.normalMatrix (MDN.multiplyMatrices t.view t.model) }) ∧
    (∀ t, Lesson05Multi.computeNormalMatrix t =
      { t with normalMatrix := MDN.normalMatrix (MDN.multiplyMatrices t.view t.model) }) ∧
    (∀ t, Lesson05BlinnPhong.computeNormalMatrix t =
      { t with normalMatrix := MDN.normalMatrix t.model }) ∧
    (∀ t, LessonHalfway.computeNormalMatrix t =
      { t with normalMatrix := MDN.normalMatrix t.model }) ∧
    (∃ t, (Lesson04.computeNormalMatrix t).normalMatrix ≠
      (Lesson05BlinnPhong.computeNormalMatrix t).normalMatrix) := by
  refine ⟨fun m => rfl, fun t => rfl, fun t => rfl, fun t => rfl, fun t => rfl, fun t => rfl, ?_⟩
  refine ⟨⟨MDN.identityMatrix, ⟨2,0,0,0, 0,2,0,0, 0,0,2,0, 0,0,0,1⟩,
    MDN.identityMatrix, MDN.normalMatrix MDN.identityMatrix⟩, ?_⟩
  norm_num [Lesson04.computeNormalMatrix, Lesson05BlinnPhong.computeNormalMatrix,
    MDN.normalMatrix, MDN.multiplyMatrices, MDN.topLeft3x3, MDN.invert3,
    MDN.transpose3, MDN.det3, MDN.identityMatrix, MDN.Matrix3.ext_iff]

/-- C2: inverting a translation gives the opposite translation, so the
transform-normals lesson's directly-negated view matrix translateMatrix(0,
-5, -10) equals the view matrix the no-lighting, Lambert and
multiple-lights lessons build as invertMatrix(translateMatrix(0, 5, 10)). -/
theorem C2_translation_inverse :
    (∀ x y z : ℚ, MDN.invertMatrix (MDN.translateMatrix x y z) =
      some (MDN.translateMatrix (-x) (-y) (-z))) ∧
    Lesson01.computeViewMatrix = some Lesson03.computeViewMatrix ∧
    Lesson04.computeViewMatrix = some Lesson03.computeViewMatrix ∧
    Lesson05Multi.computeViewMatrix = some Lesson03.computeViewMatrix := by
  have law : ∀ x y z : ℚ, MDN.invertMatrix (MDN.translateMatrix x y z) =
      some (MDN.translateMatrix (-x) (-y) (-z)) := by
    intro x y z
    have hdet : MDN.det4 (MDN.translateMatrix x y z) = 1 := by
      simp [MDN.det4, MDN.translateMatrix]
    rw [MDN.invertMatrix, if_neg (by rw [hdet]; norm_num)]
    refine congrArg some ?_
    ext <;> norm_num [MDN.invertAux, MDN.translateMatrix, MDN.det4]
  refine ⟨law, ?_, ?_, ?_⟩ <;>
    simpa [Lesson01.computeViewMatrix, Lesson04.computeViewMatrix,
      Lesson05Multi.computeViewMatrix, Lesson03.computeViewMatrix] using law 0 5 10

/-- C3 counterexample: for the invertible matrix A = translateMatrix(1, 0, 0),
invertMatrix(multiplyMatrices(A, invertMatrix(A))) is the identity, not A,
so the round-trip expression does not recover A. -/
theorem C3_roundtrip_counterexample :
    MDN.det4 (MDN.translateMatrix 1 0 0) ≠ 0 ∧
    (MDN.invertMatrix (MDN.translateMatrix 1 0 0)).bind
      (fun Ai => MDN.invertMatrix (MDN.multiplyMatrices (MDN.translateMatrix 1 0 0) Ai)) ≠
      some (MDN.translateMatrix 1 0 0) := by
  constructor
  · norm_num [MDN.det4, MDN.translateMatrix]
  · norm_num [MDN.invertMatrix, MDN.invertAux, MDN.det4, MDN.translateMatrix,
      MDN.multiplyMatrices, MDN.Matrix4.ext_iff]

/-- C3 (amended): for every 4x4 matrix A with nonzero determinant,
invertMatrix(multiplyMatrices(A, invertMatrix(A))) is the identity matrix —
the round-trip expression recovers the identity, not A. -/
theorem C3_roundtrip_identity (A : MDN.Matrix4) (h : MDN.det4 A ≠ 0) :
    (MDN.invertMatrix A).bind
      (fun Ai => MDN.invertMatrix (MDN.multiplyMatrices A Ai)) =
      some MDN.identityMatrix := by
  rw [MDN.invertMatrix, if_neg h, Option.some_bind, MDN.mul_invertAux A h]
  norm_num [MDN.invertMatrix, MDN.invertAux, MDN.det4, MDN.identityMatrix,
    MDN.Matrix4.ext_iff]

/-- C3 witness: the amended round-trip law evaluated at the concrete
invertible matrix translateMatrix(1, 2, 3). -/
theorem C3_roundtrip_identity_witness :
    (MDN.invertMatrix (MDN.translateMatrix 1 2 3)).bind
      (fun Ai => MDN.invertMatrix (MDN.multiplyMatrices (MDN.translateMatrix 1 2 3) Ai)) =
      some MDN.identityMatrix :=
  C3_roundtrip_identity (MDN.translateMatrix 1 2 3)
    (by norm_num [MDN.det4, MDN.translateMatrix])

namespace Lesson05Multi

/-- A 3-element numeric array (a light's position or color), indexed 0/1/2
as the flattening loop reads it. -/
structure Arr3 where
  v0 : ℚ
  v1 : ℚ
  v2 : ℚ
deriving DecidableEq, Repr

/-- The SpotLight constructor of 05-multiple-lights: position, color,
intensity, linearAttenuation, quadraticAttenuation, stored as given. -/
structure SpotLight where
  position : Arr3
  color : Arr3
  intensity : ℚ
  linearAttenuation : ℚ
  quadraticAttenuation : ℚ
deriving DecidableEq, Repr

/-- new SpotLight([-15, 15, 15], [1, 1, 0.9], 1, 0, 1/1000). -/
def spotLight : SpotLight :=
  ⟨⟨-15, 15, 15⟩, ⟨1, 1, 0.9⟩, 1, 0, 1/1000⟩

/-- new SpotLight([15, -5, 5], [0.6, 0.8, 1.0], 1, 0, 1/1000). -/
def fillLight : SpotLight :=
  ⟨⟨15, -5, 5⟩, ⟨0.6, 0.8, 1.0⟩, 1, 0, 1/1000⟩

/-- new SpotLight([5, 10, -5], [1.0, 1.0, 1.0], 1, 0, 1/1000). -/
def rimLight : SpotLight :=
  ⟨⟨5, 10, -5⟩, ⟨1.0, 1.0, 1.0⟩, 1, 0, 1/1000⟩

/-- this.lights = [spotLight, fillLight, rimLight]. -/
def lightsList : List SpotLight := [spotLight, fillLight, rimLight]

/-- The five flat GPU-facing arrays of this.buffers.lights, modelled as
index-to-value maps (a Float32Array read off by plain indexing). -/
structure LightBuffers where
  position : ℕ → ℚ
  color : ℕ → ℚ
  intensity : ℕ → ℚ
  linearAttenuation : ℕ → ℚ
  quadraticAttenuation : ℕ → ℚ

/-- Freshly allocated Float32Arrays are zero-filled. -/
def zeroBuffers : LightBuffers :=
  ⟨fun _ => 0, fun _ => 0, fun _ => 0, fun _ => 0, fun _ => 0⟩

/-- One iteration of the updateLightBuffers loop body: the nine indexed
stores for light number i. -/
def writeLight (b : LightBuffers) (i : ℕ) (light : SpotLight) : LightBuffers where
  position :=
    Function.update
      (Function.update (Function.update b.position (i*3) light.position.v0)
        (i*3+1) light.position.v1)
      (i*3+2) light.position.v2
  color :=
    Function.update
      (Function.update (Function.update b.color (i*3) light.color.v0)
        (i*3+1) light.color.v1)
      (i*3+2) light.color.v2
  intensity := Function.update b.intensity i light.intensity
  linearAttenuation := Function.update b.linearAttenuation i light.linearAttenuation
  quadraticAttenuation := Function.update b.quadraticAttenuation i light.quadraticAttenuation

/-- The for-loop of updateLightBuffers, one light after the other, counting
i upward. -/
def flattenLoop (b : LightBuffers) (i : ℕ) : List SpotLight → LightBuffers
  | [] => b
  | light :: rest => flattenLoop (writeLight b i light) (i+1) rest

/-- updateLightBuffers: flatten all of the lighting object data into the
array buffers, starting at light index 0. -/
def updateLightBuffers (b : LightBuffers) (ls : List SpotLight) : LightBuffers :=
  flattenLoop b 0 ls

/-- Loop iterations for lights i and beyond never touch buffer entries that
belong to earlier lights. -/
theorem flattenLoop_untouched (ls : List SpotLight) :
    ∀ (b : LightBuffers) (i p q : ℕ), p < i*3 → q < i →
    (flattenLoop b i ls).position p = b.position p ∧
    (flattenLoop b i ls).color p = b.color p ∧
    (flattenLoop b i ls).intensity q = b.intensity q ∧
    (flattenLoop b i ls).linearAttenuation q = b.linearAttenuation q ∧
    (flattenLoop b i ls).quadraticAttenuation q = b.quadraticAttenuation q := by
  induction ls with
  | nil => intro b i p q hp hq; simp [flattenLoop]
  | cons light rest ih =>
    intro b i p q hp hq
    have h := ih (writeLight b i light) (i+1) p q (by omega) (by omega)
    simp only [flattenLoop]
    refine ⟨?_, ?_, ?_, ?_, ?_⟩
    · rw [h.1]
      simp only [writeLight]
      rw [Function.update_noteq (by omega), Function.update_noteq (by omega),
        Function.update_noteq (by omega)]
    · rw [h.2.1]
      simp only [writeLight]
      rw [Function.update_noteq (by omega), Function.update_noteq (by omega),
        Function.update_noteq (by omega)]
    · rw [h.2.2.1]
      simp only [writeLight]
      rw [Function.update_noteq (by omega)]
    · rw [h.2.2.2.1]
      simp only [writeLight]
      rw [Function.update_noteq (by omega)]
    · rw [h.2.2.2.2]
      simp only [writeLight]
      rw [Function.update_noteq (by omega)]

/-- After the loop starting at light index i, the entries of light i+k hold
that light's data. -/
theorem flattenLoop_reads (ls : List SpotLight) :
    ∀ (k : ℕ) (hk : k < ls.length) (b : LightBuffers) (i : ℕ),
    (flattenLoop b i ls).position ((i+k)*3) = (ls.get ⟨k, hk⟩).position.v0 ∧
    (flattenLoop b i ls).position ((i+k)*3+1) = (ls.get ⟨k, hk⟩).position.v1 ∧
    (flattenLoop b i ls).position ((i+k)*3+2) = (ls.get ⟨k, hk⟩).position.v2 ∧
    (flattenLoop b i ls).color ((i+k)*3) = (ls.get ⟨k, hk⟩).color.v0 ∧
    (flattenLoop b i ls).color ((i+k)*3+1) = (ls.get ⟨k, hk⟩).color.v1 ∧
    (flattenLoop b i ls).color ((i+k)*3+2) = (ls.get ⟨k, hk⟩).color.v2 ∧
    (flattenLoop b i ls).intensity (i+k) = (ls.get ⟨k, hk⟩).intensity ∧
    (flattenLoop b i ls).linearAttenuation (i+k) = (ls.get ⟨k, hk⟩).linearAttenuation ∧
    (flattenLoop b i ls).quadraticAttenuation (i+k) = (ls.get ⟨k, hk⟩).quadraticAttenuation := by
  induction ls with
  | nil => intro k hk; exact absurd hk (by simp)
  | cons light rest ih =>
    intro k hk b i
    match k with
    | 0 =>
      simp only [flattenLoop, List.get, Nat.add_zero]
      have hu0 := flattenLoop_untouched rest (writeLight b i light) (i+1) (i*3) i
        (by omega) (by omega)
      have hu1 := flattenLoop_untouched rest (writeLight b i light) (i+1) (i*3+1) i
        (by omega) (by omega)
      have hu2 := flattenLoop_untouched rest (writeLight b i light) (i+1) (i*3+2) i
        (by omega) (by omega)
      refine ⟨?_, ?_, ?_, ?_, ?_, ?_, ?_, ?_, ?_⟩
      · rw [hu0.1]
        simp only [writeLight]
        rw [Function.update_noteq (by omega), Function.update_noteq (by omega),
          Function.update_same]
      · rw [hu1.1]
        simp only [writeLight]
        rw [Function.update_noteq (by omega), Function.update_same]
      · rw [hu2.1]
        simp only [writeLight]
        rw [Function.update_same]
      · rw [hu0.2.1]
        simp only [writeLight]
        rw [Function.update_noteq (by omega), Function.update_noteq (by omega),
          Function.update_same]
      · rw [hu1.2.1]
        simp only [writeLight]
        rw [Function.update_noteq (by omega), Function.update_same]
      · rw [hu2.2.1]
        simp only [writeLight]
        rw [Function.update_same]
      · rw [hu0.2.2.1]
        simp only [writeLight]
        rw [Function.update_same]
      · rw [hu0.2.2.2.1]
        simp only [writeLight]
        rw [Function.update_same]
      · rw [hu0.2.2.2.2]
        simp only [writeLight]
        rw [Function.update_same]
    | k'+1 =>
      have h := ih k' (by simpa using Nat.lt_of_succ_lt_succ hk) (writeLight b i light) (i+1)
      simp only [flattenLoop, List.get]
      rw [show i+(k'+1) = (i+1)+k' from by omega]
      exact h

/-- Modelled from the spec: the per-light attenuation factor of the
multiple-lights fragment shader (the shader source is not among the staged
files), 1 / (1 + linearAttenuation*distance + quadraticAttenuation*distance^2). -/
def attenuationFactor (linearA quadraticA dist : ℚ) : ℚ :=
  1 / (1 + linearA * dist + quadraticA * (dist * dist))

/-- The fixed uniform data one frame uploads to the GPU (the gl.uniform*
calls of updateAttributesAndUniforms). -/
structure FrameUniforms where
  projection : MDN.Matrix4
  view : MDN.Matrix4
  model : MDN.Matrix4
  normalMatrix : MDN.Matrix3
  color : ℚ × ℚ × ℚ × ℚ
  lightPosition : ℕ → ℚ
  lightColor : ℕ → ℚ
  lightIntensity : ℕ → ℚ
  lightLinearAttenuation : ℕ → ℚ
  lightQuadraticAttenuation : ℕ → ℚ

/-- The mutable fields of the 05-multiple-lights BunnyDemo instance that the
render loop reads and writes. -/
structure DemoState where
  transforms : Transforms
  color : ℚ × ℚ × ℚ × ℚ
  lights : List SpotLight
  lightBuffers : LightBuffers

/-- createLights: construct the three SpotLights, allocate the flat zeroed
light arrays, and flatten the light data into them once. -/
def createLights (s : DemoState) : DemoState :=
  { s with
    lights := lightsList
    lightBuffers := updateLightBuffers zeroBuffers lightsList }

/-- Modelled from the spec: MDN.rotateYMatrix from the missing
shared/matrices.js — rotation about the vertical axis; its cosine and sine
are taken as arguments because they are transcendental in the angle. -/
def rotateYMatrix (c s : ℚ) : MDN.Matrix4 where
  m0 := c
  m1 := 0
  m2 := -s
  m3 := 0
  m4 := 0
  m5 := 1
  m6 := 0
  m7 := 0
  m8 := s
  m9 := 0
  m10 := c
  m11 := 0
  m12 := 0
  m13 := 0
  m14 := 0
  m15 := 1

/-- computeModelMatrix: replace the model matrix with the time-driven
rotation (the cosine/sine pair of now * 0.0005). -/
def computeModelMatrix (c sn : ℚ) (s : DemoState) : DemoState :=
  { s with transforms := { s.transforms with model := rotateYMatrix c sn } }

/-- The lesson's computeNormalMatrix applied to the demo state. -/
def computeNormalMatrixState (s : DemoState) : DemoState :=
  { s with transforms := computeNormalMatrix s.transforms }

/-- updateAttributesAndUniforms: read the current transforms, color and the
flat light arrays (this.buffers.lights) and hand them to the GPU.  The
lights list itself is never read here. -/
def updateAttributesAndUniforms (s : DemoState) : FrameUniforms where
  projection := s.transforms.projection
  view := s.transforms.view
  model := s.transforms.model
  normalMatrix := s.transforms.normalMatrix
  color := s.color
  lightPosition := s.lightBuffers.position
  lightColor := s.lightBuffers.color
  lightIntensity := s.lightBuffers.intensity
  lightLinearAttenuation := s.lightBuffers.linearAttenuation
  lightQuadraticAttenuation := s.lightBuffers.quadraticAttenuation

/-- One draw tick: recompute the model and normal matrices, then upload the
uniform data; returns the uploaded data and the state the next tick sees. -/
def draw (c sn : ℚ) (s : DemoState) : FrameUniforms × DemoState :=
  let s1 := computeModelMatrix c sn s
  let s2 := computeNormalMatrixState s1
  (updateAttributesAndUniforms s2, s2)

end Lesson05Multi

/-- C5: the attenuation factor is 1/(1 + linear*d + quadratic*d^2); every
SpotLight of the multiple-lights lesson is built with linearAttenuation = 0
and quadraticAttenuation = 1/1000; with those values the factor is exactly
1 at distance 0 and tends to 0 as the distance grows without bound. -/
theorem C5_attenuation :
    (∀ linearA quadraticA dist : ℚ,
      Lesson05Multi.attenuationFactor linearA quadraticA dist =
        1 / (1 + linearA * dist + quadraticA * (dist * dist))) ∧
    (∀ light ∈ Lesson05Multi.lightsList,
      light.linearAttenuation = 0 ∧ light.quadraticAttenuation = 1/1000) ∧
    Lesson05Multi.attenuationFactor 0 (1/1000) 0 = 1 ∧
    (∀ ε : ℚ, 0 < ε → ∃ D : ℚ, ∀ dist : ℚ, D ≤ dist →
      Lesson05Multi.attenuationFactor 0 (1/1000) dist < ε) := by
  refine ⟨fun _ _ _ => rfl, ?_, by norm_num [Lesson05Multi.attenuationFactor], ?_⟩
  · intro light hl
    simp only [Lesson05Multi.lightsList, List.mem_cons, List.not_mem_nil, or_false] at hl
    rcases hl with h | h | h <;>
      simp [h, Lesson05Multi.spotLight, Lesson05Multi.fillLight, Lesson05Multi.rimLight]
  · intro ε hε
    refine ⟨1000/ε + 1000, fun dist hD => ?_⟩
    have h1 : (1 : ℚ) ≤ dist := by
      have : 0 < 1000/ε := by positivity
      nlinarith
    have h2 : 1000/ε ≤ dist := by nlinarith
    have h3 : 1000 ≤ ε * dist := by
      have := (div_le_iff hε).mp h2
      nlinarith
    have hden : 0 < 1 + (0:ℚ) * dist + (1/1000) * (dist * dist) := by nlinarith
    rw [Lesson05Multi.attenuationFactor, div_lt_iff hden]
    nlinarith

/-- C6: updateLightBuffers writes light i's position to indices 3i..3i+2 of
the position array, its color to indices 3i..3i+2 of the color array, and
its three scalars to index i of their arrays — per-light data of 3, 3, 1,
1, 1 floats laid out in light-list order. -/
theorem C6_light_flattening (b : Lesson05Multi.LightBuffers)
    (ls : List Lesson05Multi.SpotLight) (i : ℕ) (hi : i < ls.length) :
    (Lesson05Multi.updateLightBuffers b ls).position (3*i) = (ls.get ⟨i, hi⟩).position.v0 ∧
    (Lesson05Multi.updateLightBuffers b ls).position (3*i+1) = (ls.get ⟨i, hi⟩).position.v1 ∧
    (Lesson05Multi.updateLightBuffers b ls).position (3*i+2) = (ls.get ⟨i, hi⟩).position.v2 ∧
    (Lesson05Multi.updateLightBuffers b ls).color (3*i) = (ls.get ⟨i, hi⟩).color.v0 ∧
    (Lesson05Multi.updateLightBuffers b ls).color (3*i+1) = (ls.get ⟨i, hi⟩).color.v1 ∧
    (Lesson05Multi.updateLightBuffers b ls).color (3*i+2) = (ls.get ⟨i, hi⟩).color.v2 ∧
    (Lesson05Multi.updateLightBuffers b ls).intensity i = (ls.get ⟨i, hi⟩).intensity ∧
    (Lesson05Multi.updateLightBuffers b ls).linearAttenuation i =
      (ls.get ⟨i, hi⟩).linearAttenuation ∧
    (Lesson05Multi.updateLightBuffers b ls).quadraticAttenuation i =
      (ls.get ⟨i, hi⟩).quadraticAttenuation := by
  have h := Lesson05Multi.flattenLoop_reads ls i hi b 0
  rw [show (0+i)*3 = 3*i from by ring] at h
  simpa [Lesson05Multi.updateLightBuffers] using h

/-- C6 witness: the flattening evaluated for light 1 (fillLight) of the
lesson's own light list, starting from zeroed buffers. -/
theorem C6_light_flattening_witness :
    (Lesson05Multi.updateLightBuffers Lesson05Multi.zeroBuffers
      Lesson05Multi.lightsList).position (3*1) = 15 ∧
    (Lesson05Multi.updateLightBuffers Lesson05Multi.zeroBuffers
      Lesson05Multi.lightsList).position (3*1+1) = -5 ∧
    (Lesson05Multi.updateLightBuffers Lesson05Multi.zeroBuffers
      Lesson05Multi.lightsList).position (3*1+2) = 5 ∧
    (Lesson05Multi.updateLightBuffers Lesson05Multi.zeroBuffers
      Lesson05Multi.lightsList).color (3*1) = 0.6 ∧
    (Lesson05Multi.updateLightBuffers Lesson05Multi.zeroBuffers
      Lesson05Multi.lightsList).intensity 1 = 1 ∧
    (Lesson05Multi.updateLightBuffers Lesson05Multi.zeroBuffers
      Lesson05Multi.lightsList).quadraticAttenuation 1 = 1/1000 := by
  have h := C6_light_flattening Lesson05Multi.zeroBuffers Lesson05Multi.lightsList 1
    (by simp [Lesson05Multi.lightsList])
  refine ⟨?_, ?_, ?_, ?_, ?_, ?_⟩
  · simpa [Lesson05Multi.lightsList, Lesson05Multi.fillLight, List.get] using h.1
  · simpa [Lesson05Multi.lightsList, Lesson05Multi.fillLight, List.get] using h.2.1
  · simpa [Lesson05Multi.lightsList, Lesson05Multi.fillLight, List.get] using h.2.2.1
  · simpa [Lesson05Multi.lightsList, Lesson05Multi.fillLight, List.get] using h.2.2.2.1
  · simpa [Lesson05Multi.lightsList, Lesson05Multi.fillLight, List.get] using
      h.2.2.2.2.2.2.1
  · simpa [Lesson05Multi.lightsList, Lesson05Multi.fillLight, List.get] using
      h.2.2.2.2.2.2.2.2

/-- C10: the flat light arrays are produced once, inside createLights; a
draw tick rewrites only the model and normal matrices and uploads whatever
the buffers hold, and the uploaded light data reads the buffers alone — so
changing the SpotLight objects after construction never changes what a
frame uploads. -/
theorem C10_light_buffers_static :
    (∀ s, (Lesson05Multi.createLights s).lightBuffers =
      Lesson05Multi.updateLightBuffers Lesson05Multi.zeroBuffers
        (Lesson05Multi.createLights s).lights) ∧
    (∀ c sn s, ((Lesson05Multi.draw c sn s).2).lightBuffers = s.lightBuffers ∧
      ((Lesson05Multi.draw c sn s).2).lights = s.lights) ∧
    (∀ s, (Lesson05Multi.updateAttributesAndUniforms s).lightPosition =
        s.lightBuffers.position ∧
      (Lesson05Multi.updateAttributesAndUniforms s).lightColor = s.lightBuffers.color ∧
      (Lesson05Multi.updateAttributesAndUniforms s).lightIntensity =
        s.lightBuffers.intensity ∧
      (Lesson05Multi.updateAttributesAndUniforms s).lightLinearAttenuation =
        s.lightBuffers.linearAttenuation ∧
      (Lesson05Multi.updateAttributesAndUniforms s).lightQuadraticAttenuation =
        s.lightBuffers.quadraticAttenuation) ∧
    (∀ s newLights, Lesson05Multi.updateAttributesAndUniforms { s with lights := newLights } =
      Lesson05Multi.updateAttributesAndUniforms s) ∧
    (∀ c sn s, (Lesson05Multi.draw c sn s).1 =
      Lesson05Multi.updateAttributesAndUniforms ((Lesson05Multi.draw c sn s).2)) := by
  exact ⟨fun s => rfl, fun c sn s => ⟨rfl, rfl⟩,
    fun s => ⟨rfl, rfl, rfl, rfl, rfl⟩, fun s newLights => rfl, fun c sn s => rfl⟩

/-- A 3-component vector of the vector/shading layer ([x, y, z] in the
lesson code), over the reals because normalize takes a square root. -/
structure Vec3 where
  x : ℝ
  y : ℝ
  z : ℝ

attribute [ext] Vec3

/-- A 4-component color vector (RGBA). -/
structure Vec4 where
  x : ℝ
  y : ℝ
  z : ℝ
  w : ℝ

attribute [ext] Vec4

/-- Squared Euclidean norm, x*x + y*y + z*z. -/
noncomputable def normSq (v : Vec3) : ℝ :=
  v.x * v.x + v.y * v.y + v.z * v.z

/-- Euclidean norm of a 3-vector. -/
noncomputable def norm3 (v : Vec3) : ℝ :=
  Real.sqrt (normSq v)

/-- Componentwise scaling of a 3-vector. -/
noncomputable def scale3 (c : ℝ) (v : Vec3) : Vec3 :=
  ⟨c * v.x, c * v.y, c * v.z⟩

/-- Componentwise sum of two 3-vectors. -/
noncomputable def vadd3 (a b : Vec3) : Vec3 :=
  ⟨a.x + b.x, a.y + b.y, a.z + b.z⟩

/-- dotProduct(vectorA, vectorB) as 04-lambert-lighting defines it: the sum
of the componentwise products. -/
noncomputable def dotProduct (a b : Vec3) : ℝ :=
  a.x * b.x + a.y * b.y + a.z * b.z

/-- The error a degenerate (zero-length) vector raises in normalize, per
the spec's DegenerateInput taxonomy. -/
inductive VecError where
  | degenerateVector
deriving DecidableEq, Repr

/-- GLSL's built-in normalize as the fragment shaders use it: v scaled by
the reciprocal of its length (callers guarantee a nonzero input). -/
noncomputable def glslNormalize (v : Vec3) : Vec3 :=
  scale3 (1 / norm3 v) v

namespace MDN

open Classical in
/-- Modelled from the spec: MDN.normalize(v) from the missing
shared/matrices.js, under the spec's fail-fast contract — v scaled by
1/its norm, or a DegenerateVector error when the norm is zero. -/
noncomputable def normalize (v : Vec3) : Except VecError Vec3 :=
  if norm3 v = 0 then Except.error VecError.degenerateVector
  else Except.ok (scale3 (1 / norm3 v) v)

end MDN

/-- The squared norm is nonnegative. -/
theorem normSq_nonneg (v : Vec3) : 0 ≤ normSq v := by
  have hx := mul_self_nonneg v.x
  have hy := mul_self_nonneg v.y
  have hz := mul_self_nonneg v.z
  simp only [normSq]
  nlinarith

/-- The squared norm vanishes exactly on the zero vector. -/
theorem normSq_eq_zero_iff (v : Vec3) : normSq v = 0 ↔ v.x = 0 ∧ v.y = 0 ∧ v.z = 0 := by
  constructor
  · intro h
    have hx := mul_self_nonneg v.x
    have hy := mul_self_nonneg v.y
    have hz := mul_self_nonneg v.z
    simp only [normSq] at h
    refine ⟨?_, ?_, ?_⟩ <;> nlinarith
  · rintro ⟨hx, hy, hz⟩
    simp [normSq, hx, hy, hz]

/-- The norm vanishes exactly when the squared norm does. -/
theorem norm3_eq_zero_iff (v : Vec3) : norm3 v = 0 ↔ normSq v = 0 := by
  rw [norm3]
  exact Real.sqrt_eq_zero (normSq_nonneg v)

/-- The norm squares back to the squared norm. -/
theorem norm3_mul_self (v : Vec3) : norm3 v * norm3 v = normSq v :=
  Real.mul_self_sqrt (normSq_nonneg v)

/-- Scaling a vector of nonzero norm by the reciprocal of its norm yields a
unit vector. -/
theorem norm3_scale_inv (v : Vec3) (h : norm3 v ≠ 0) :
    norm3 (scale3 (1 / norm3 v) v) = 1 := by
  have hsq : normSq (scale3 (1 / norm3 v) v) = 1 := by
    have hv := norm3_mul_self v
    simp only [normSq, scale3] at hv ⊢
    field_simp
    nlinarith
  rw [norm3, hsq, Real.sqrt_one]

/-- C7: normalize returns v scaled by the reciprocal of its Euclidean norm
whenever that norm is nonzero, fails fast with a DegenerateVector error on
a zero-norm input, and on [1, 1, 0] produces the lesson's logged value
[0.7071..., 0.7071..., 0] (the exact value sqrt(2)/2 in each of the first
two components). -/
theorem C7_normalize_contract :
    (∀ v : Vec3, norm3 v ≠ 0 →
      MDN.normalize v = Except.ok (scale3 (1 / norm3 v) v)) ∧
    (∀ v : Vec3, norm3 v = 0 →
      MDN.normalize v = Except.error VecError.degenerateVector) ∧
    MDN.normalize ⟨1, 1, 0⟩ =
      Except.ok ⟨Real.sqrt 2 / 2, Real.sqrt 2 / 2, 0⟩ := by
  refine ⟨fun v h => by rw [MDN.normalize, if_neg h],
    fun v h => by rw [MDN.normalize, if_pos h], ?_⟩
  have hsq : normSq ⟨1, 1, 0⟩ = 2 := by norm_num [normSq]
  have hn : norm3 ⟨1, 1, 0⟩ = Real.sqrt 2 := by rw [norm3, hsq]
  have hs2 : Real.sqrt 2 * Real.sqrt 2 = 2 := Real.mul_self_sqrt (by norm_num)
  have hne : Real.sqrt 2 ≠ 0 := by
    have : (0:ℝ) < Real.sqrt 2 := Real.sqrt_pos.mpr (by norm_num)
    exact ne_of_gt this
  rw [MDN.normalize, if_neg (by rw [hn]; exact hne)]
  congr 1
  have hval : 1 / Real.sqrt 2 = Real.sqrt 2 / 2 := by
    field_simp
  ext <;> simp [scale3, hn, hval]

namespace Lesson04

/-- lightFromTopRight = MDN.normalize([1, 1, 0]) from the lesson text. -/
noncomputable def lightFromTopRight : Except VecError Vec3 :=
  MDN.normalize ⟨1, 1, 0⟩

/-- The fragment-shader excerpt quoted in 04-lambert-lighting:
lightDotProduct = dot(normalize(vNormal), light);
surfaceBrightness = max(0.0, lightDotProduct);
gl_FragColor = vec4(color.xyz * surfaceBrightness, color.w). -/
noncomputable def lambertFragment (vNormal light : Vec3) (color : Vec4) : Vec4 :=
  let lightDotProduct := dotProduct (glslNormalize vNormal) light
  let surfaceBrightness := max 0 lightDotProduct
  ⟨color.x * surfaceBrightness, color.y * surfaceBrightness,
    color.z * surfaceBrightness, color.w⟩

open Classical in
/-- The dat.GUI change callback of 04-lambert-lighting: when all three
slider values are exactly 0 the Y component is first replaced by -1, then
the vector is normalized into this.light. -/
noncomputable def syncWithUniforms (x y z : ℝ) : Except VecError Vec3 :=
  MDN.normalize (if x = 0 ∧ y = 0 ∧ z = 0 then (⟨x, -1, z⟩ : Vec3) else ⟨x, y, z⟩)

end Lesson04

namespace Lesson05BlinnPhong

open Classical in
/-- The dat.GUI change callback of 05-blinn-phong-lighting-model, identical
to the Lambert lesson's: zero input gets Y := -1 before normalizing. -/
noncomputable def syncWithUniforms (x y z : ℝ) : Except VecError Vec3 :=
  MDN.normalize (if x = 0 ∧ y = 0 ∧ z = 0 then (⟨x, -1, z⟩ : Vec3) else ⟨x, y, z⟩)

end Lesson05BlinnPhong

namespace LessonHalfway

open Classical in
/-- The dat.GUI change callback of the unnamed halfway-vector lesson
(src/unnamed/part_000), identical to the Lambert lesson's. -/
noncomputable def syncWithUniforms (x y z : ℝ) : Except VecError Vec3 :=
  MDN.normalize (if x = 0 ∧ y = 0 ∧ z = 0 then (⟨x, -1, z⟩ : Vec3) else ⟨x, y, z⟩)

/-- The halfway vector of the lesson text: the view vector and the light
vector added together and renormalized. -/
noncomputable def halfwayVector (viewDir lightDir : Vec3) : Vec3 :=
  glslNormalize (vadd3 viewDir lightDir)

/-- Modelled from the spec: the specular term of the Blinn-Phong shader
(the shader source itself is not among the staged files) —
pow(max(0, dot(surfaceNormal, halfwayVector)), specularShininess) *
specularAmount, with a real exponent. -/
noncomputable def specularTerm (surfaceNormal halfway : Vec3)
    (shininess amount : ℝ) : ℝ :=
  max 0 (dotProduct surfaceNormal halfway) ^ shininess * amount

end LessonHalfway

/-- Core of the sync callbacks: the adjusted slider vector always
normalizes successfully to a unit vector, and to [0, -1, 0] when all three
sliders are zero. -/
theorem syncWithUniforms_core (x y z : ℝ) :
    ∃ w, MDN.normalize
        (if x = 0 ∧ y = 0 ∧ z = 0 then (⟨x, -1, z⟩ : Vec3) else ⟨x, y, z⟩) =
        Except.ok w ∧ norm3 w = 1 ∧
      ((x = 0 ∧ y = 0 ∧ z = 0) → w = ⟨0, -1, 0⟩) := by
  by_cases hc : x = 0 ∧ y = 0 ∧ z = 0
  · obtain ⟨hx, hy, hz⟩ := hc
    subst hx; subst hy; subst hz
    rw [if_pos ⟨rfl, rfl, rfl⟩]
    have hns : normSq ⟨0, -1, 0⟩ = 1 := by norm_num [normSq]
    have hn : norm3 ⟨0, -1, 0⟩ = 1 := by rw [norm3, hns, Real.sqrt_one]
    refine ⟨⟨0, -1, 0⟩, ?_, hn, fun _ => rfl⟩
    rw [MDN.normalize, if_neg (by rw [hn]; norm_num)]
    congr 1
    ext <;> simp [scale3, hn]
  · rw [if_neg hc]
    have hnz : normSq ⟨x, y, z⟩ ≠ 0 := fun h0 => hc ((normSq_eq_zero_iff ⟨x, y, z⟩).mp h0)
    have hn : norm3 ⟨x, y, z⟩ ≠ 0 := fun h => hnz ((norm3_eq_zero_iff _).mp h)
    refine ⟨scale3 (1 / norm3 ⟨x, y, z⟩) ⟨x, y, z⟩, ?_, norm3_scale_inv _ hn,
      fun hcontra => absurd hcontra hc⟩
    rw [MDN.normalize, if_neg hn]

/-- C9: in each lesson with a light-direction panel, the change callback
never hands normalize the zero vector — an all-zero slider state has its Y
component replaced by -1 first — so the resulting this.light is always a
well-defined unit vector, [0, -1, 0] in the all-zero case, and normalize's
degenerate branch is unreachable from the GUI. -/
theorem C9_sync_never_degenerate :
    (∀ x y z : ℝ, ∃ w, Lesson04.syncWithUniforms x y z = Except.ok w ∧
      norm3 w = 1 ∧ ((x = 0 ∧ y = 0 ∧ z = 0) → w = ⟨0, -1, 0⟩)) ∧
    (∀ x y z : ℝ, ∃ w, Lesson05BlinnPhong.syncWithUniforms x y z = Except.ok w ∧
      norm3 w = 1 ∧ ((x = 0 ∧ y = 0 ∧ z = 0) → w = ⟨0, -1, 0⟩)) ∧
    (∀ x y z : ℝ, ∃ w, LessonHalfway.syncWithUniforms x y z = Except.ok w ∧
      norm3 w = 1 ∧ ((x = 0 ∧ y = 0 ∧ z = 0) → w = ⟨0, -1, 0⟩)) :=
  ⟨fun x y z => syncWithUniforms_core x y z,
   fun x y z => syncWithUniforms_core x y z,
   fun x y z => syncWithUniforms_core x y z⟩

/-- C4: for a unit surface normal and unit light direction, the Lambert
fragment's brightness is max(0, dot(normalize(vNormal), light)) =
max(0, dot(vNormal, light)), it lies in [0, 1], a negative dot product
yields exactly 0, and the output color is the material RGB scaled by that
brightness with the alpha component unchanged. -/
theorem C4_lambert_brightness (n l : Vec3) (c : Vec4)
    (hn : norm3 n = 1) (hl : norm3 l = 1) :
    Lesson04.lambertFragment n l c =
      ⟨c.x * max 0 (dotProduct n l), c.y * max 0 (dotProduct n l),
        c.z * max 0 (dotProduct n l), c.w⟩ ∧
    0 ≤ max 0 (dotProduct n l) ∧ max 0 (dotProduct n l) ≤ 1 ∧
    (dotProduct n l < 0 → max 0 (dotProduct n l) = 0) := by
  have hnn : normSq n = 1 := by rw [← norm3_mul_self n, hn]; norm_num
  have hll : normSq l = 1 := by rw [← norm3_mul_self l, hl]; norm_num
  have hglsl : glslNormalize n = n := by
    ext <;> simp [glslNormalize, scale3, hn]
  have hdot : dotProduct n l ≤ 1 := by
    simp only [normSq] at hnn hll
    simp only [dotProduct]
    nlinarith [mul_self_nonneg (n.x - l.x), mul_self_nonneg (n.y - l.y),
      mul_self_nonneg (n.z - l.z)]
  refine ⟨?_, le_max_left 0 _, max_le (by norm_num) hdot,
    fun hneg => max_eq_left (le_of_lt hneg)⟩
  simp only [Lesson04.lambertFragment, hglsl]

/-- C4 witness: the Lambert fragment contract at the concrete unit normal
[0, 1, 0], unit light direction [3/5, 4/5, 0] and the lesson's material
color [0.0, 0.4, 0.7, 1.0]. -/
theorem C4_lambert_brightness_witness :
    Lesson04.lambertFragment ⟨0, 1, 0⟩ ⟨3/5, 4/5, 0⟩ ⟨0, 0.4, 0.7, 1⟩ =
      ⟨0 * max 0 (dotProduct ⟨0, 1, 0⟩ ⟨3/5, 4/5, 0⟩),
        0.4 * max 0 (dotProduct ⟨0, 1, 0⟩ ⟨3/5, 4/5, 0⟩),
        0.7 * max 0 (dotProduct ⟨0, 1, 0⟩ ⟨3/5, 4/5, 0⟩), 1⟩ ∧
    0 ≤ max 0 (dotProduct ⟨0, 1, 0⟩ ⟨3/5, 4/5, 0⟩) ∧
    max 0 (dotProduct ⟨0, 1, 0⟩ ⟨3/5, 4/5, 0⟩) ≤ 1 ∧
    (dotProduct ⟨0, 1, 0⟩ (⟨3/5, 4/5, 0⟩ : Vec3) < 0 →
      max 0 (dotProduct ⟨0, 1, 0⟩ ⟨3/5, 4/5, 0⟩) = 0) :=
  C4_lambert_brightness ⟨0, 1, 0⟩ ⟨3/5, 4/5, 0⟩ ⟨0, 0.4, 0.7, 1⟩
    (by norm_num [norm3, normSq, Real.sqrt_one])
    (by norm_num [norm3, normSq, Real.sqrt_one])

/-- C8: the halfway vector is normalize(viewDirection + lightDirection) and
the specular term is pow(max(0, dot(surfaceNormal, halfwayVector)),
specularShininess) * specularAmount; with view and light direction both
equal to the normal [0, 0, 1] the halfway vector is [0, 0, 1] and the
specular term equals specularAmount for every shininess value. -/
theorem C8_blinn_phong_halfway :
    (∀ viewDir lightDir, LessonHalfway.halfwayVector viewDir lightDir =
      glslNormalize (vadd3 viewDir lightDir)) ∧
    (∀ (n h : Vec3) (shin amount : ℝ), LessonHalfway.specularTerm n h shin amount =
      max 0 (dotProduct n h) ^ shin * amount) ∧
    LessonHalfway.halfwayVector ⟨0, 0, 1⟩ ⟨0, 0, 1⟩ = ⟨0, 0, 1⟩ ∧
    (∀ shin amount : ℝ,
      LessonHalfway.specularTerm ⟨0, 0, 1⟩
        (LessonHalfway.halfwayVector ⟨0, 0, 1⟩ ⟨0, 0, 1⟩) shin amount = amount) := by
  have hv : vadd3 ⟨0, 0, 1⟩ ⟨0, 0, 1⟩ = (⟨0, 0, 2⟩ : Vec3) := by
    ext <;> norm_num [vadd3]
  have hn : norm3 ⟨0, 0, 2⟩ = 2 := by
    have hns : normSq ⟨0, 0, 2⟩ = 4 := by norm_num [normSq]
    rw [norm3, hns, show (4:ℝ) = 2^2 by norm_num,
      Real.sqrt_sq (by norm_num : (0:ℝ) ≤ 2)]
  have hhalf : LessonHalfway.halfwayVector ⟨0, 0, 1⟩ ⟨0, 0, 1⟩ = ⟨0, 0, 1⟩ := by
    rw [LessonHalfway.halfwayVector, hv]
    ext <;> simp [glslNormalize, scale3, hn]
  refine ⟨fun _ _ => rfl, fun _ _ _ _ => rfl, hhalf, fun shin amount => ?_⟩
  rw [hhalf]
  have hdot : dotProduct ⟨0, 0, 1⟩ (⟨0, 0, 1⟩ : Vec3) = 1 := by
    norm_num [dotProduct]
  rw [LessonHalfway.specularTerm, hdot]
  norm_num [Real.one_rpow]
